import Mathlib

/-!
# Verification of the keychain secret-store adapter

Shallow embedding of `src/src-tauri/src/keychain.rs`: three operations
(`store_secret_key`, `load_secret_key`, `clear_secret_key`) over the OS
credential backend, addressed by the fixed identity
`(SERVICE_NAME, USERNAME)`.

The OS backend (the `keyring` crate / platform credential store) is an
external dependency; it is modelled from the spec's backend contract
(§6): a capability interface `set(service, account, secret)`,
`get(service, account) → secret-or-not-found`,
`delete(service, account) → ok-or-not-found`, with any call also able to
fail with a platform access error.  Backend state is an association list
from identity to secret value; a `Fault` parameter per backend call
injects (or withholds) an access failure, so that adapter behaviour can
be examined both when backend calls succeed and when they fail.
-/

namespace Keychain

/-- A backend record identity: `(service_name, account_name)`. -/
abbrev Identity := String × String

/-- The OS credential backend's persistent state: an association list of
records, each a value stored under an identity. -/
abbrev BackendState := List (Identity × String)

/-- Error type of the backend (the `keyring` crate's `Error`), collapsed to
the two cases the adapter distinguishes: `NoEntry` ("record not found")
and everything else, carrying the native error's display string. -/
inductive KeyringError where
  | noEntry
  | other (msg : String)
deriving DecidableEq, Repr

/-- The backend error's human-readable display string (Rust `{}` formatting
of `keyring::Error`). -/
def KeyringError.display : KeyringError → String
  | .noEntry => "No matching entry found in secure storage"
  | .other msg => msg

/-- Fault injection for a single backend call: `.ok` means the call reaches
the backend and behaves per the state; `.fail msg` means the backend
reports an access failure whose native display is `msg`. -/
inductive Fault where
  | ok
  | fail (msg : String)
deriving DecidableEq, Repr

/-- Look up the record stored under `id`, first match wins. -/
def lookupRecord : BackendState → Identity → Option String
  | [], _ => none
  | (i, v) :: rest, id => if i = id then some v else lookupRecord rest id

/-- Remove every record stored under `id`. -/
def removeRecord : BackendState → Identity → BackendState
  | [], _ => []
  | (i, v) :: rest, id =>
      if i = id then removeRecord rest id else (i, v) :: removeRecord rest id

/-- Upsert: store `v` under `id`, replacing any existing record under `id`. -/
def setRecord (st : BackendState) (id : Identity) (v : String) : BackendState :=
  (id, v) :: removeRecord st id

/-- Number of records stored under `id`. -/
def countRecords : BackendState → Identity → Nat
  | [], _ => 0
  | (i, _) :: rest, id => (if i = id then 1 else 0) + countRecords rest id

/-- Modelled from the spec's backend contract (§6): `Entry::new(service, user)`
resolves the identity, or fails with a backend error. -/
def entryNew (f : Fault) (service user : String) : Except KeyringError Identity :=
  match f with
  | .fail m => .error (.other m)
  | .ok => .ok (service, user)

/-- Modelled from the spec's backend contract (§6):
`get(service, account) → secret-or-not-found`, or an access failure. -/
def backendGet (f : Fault) (st : BackendState) (id : Identity) :
    Except KeyringError String :=
  match f with
  | .fail m => .error (.other m)
  | .ok =>
      match lookupRecord st id with
      | some v => .ok v
      | none => .error .noEntry

/-- Modelled from the spec's backend contract (§6):
`set(service, account, secret)` upserts, or fails with an access failure;
returns the new backend state. -/
def backendSet (f : Fault) (st : BackendState) (id : Identity) (v : String) :
    Except KeyringError BackendState :=
  match f with
  | .fail m => .error (.other m)
  | .ok => .ok (setRecord st id v)

/-- Modelled from the spec's backend contract (§6):
`delete(service, account) → ok-or-not-found`, or an access failure;
returns the new backend state on success. -/
def backendDelete (f : Fault) (st : BackendState) (id : Identity) :
    Except KeyringError BackendState :=
  match f with
  | .fail m => .error (.other m)
  | .ok =>
      match lookupRecord st id with
      | some _ => .ok (removeRecord st id)
      | none => .error .noEntry

/-- `const SERVICE_NAME: &str = "photovault";` (keychain.rs line 12). -/
def SERVICE_NAME : String := "photovault"

/-- `const USERNAME: &str = "secret_key";` (keychain.rs line 13). -/
def USERNAME : String := "secret_key"

/-- `store_secret_key` (keychain.rs lines 22–33): create the entry, set the
password, mapping each backend error to a formatted error string.  `ef` is
the fault of the `Entry::new` call, `opf` that of `set_password`.  Returns
the adapter's result together with the backend state after the call. -/
def store_secret_key (ef opf : Fault) (key : String) (st : BackendState) :
    Except String Unit × BackendState :=
  match entryNew ef SERVICE_NAME USERNAME with
  | .error e => (.error ("Failed to create keychain entry: " ++ e.display), st)
  | .ok entry =>
      match backendSet opf st entry key with
      | .error e => (.error ("Failed to store key: " ++ e.display), st)
      | .ok st' => (.ok (), st')

/-- `load_secret_key` (keychain.rs lines 42–62): create the entry, get the
password; `Ok(password) ↦ Ok(Some password)`, `Err(NoEntry) ↦ Ok(None)`,
any other error is mapped to a formatted error string. -/
def load_secret_key (ef opf : Fault) (st : BackendState) :
    Except String (Option String) × BackendState :=
  match entryNew ef SERVICE_NAME USERNAME with
  | .error e => (.error ("Failed to create keychain entry: " ++ e.display), st)
  | .ok entry =>
      match backendGet opf st entry with
      | .ok password => (.ok (some password), st)
      | .error .noEntry => (.ok none, st)
      | .error e => (.error ("Failed to load key: " ++ e.display), st)

/-- `clear_secret_key` (keychain.rs lines 70–90): create the entry, delete the
password; `Ok(_) ↦ Ok(())`, `Err(NoEntry) ↦ Ok(())`, any other error is
mapped to a formatted error string. -/
def clear_secret_key (ef opf : Fault) (st : BackendState) :
    Except String Unit × BackendState :=
  match entryNew ef SERVICE_NAME USERNAME with
  | .error e => (.error ("Failed to create keychain entry: " ++ e.display), st)
  | .ok entry =>
      match backendDelete opf st entry with
      | .ok st' => (.ok (), st')
      | .error .noEntry => (.ok (), st)
      | .error e => (.error ("Failed to clear key: " ++ e.display), st)

/-- The fixed identity every adapter operation addresses. -/
def fixedId : Identity := (SERVICE_NAME, USERNAME)

/-! ## Lemmas on the backend state -/

theorem lookupRecord_removeRecord_self (st : BackendState) (id : Identity) :
    lookupRecord (removeRecord st id) id = none := by
  induction st with
  | nil => rfl
  | cons p rest ih =>
    obtain ⟨i, v⟩ := p
    by_cases h : i = id <;> simp [removeRecord, lookupRecord, h, ih]

theorem lookupRecord_removeRecord_other (st : BackendState) (id id' : Identity)
    (h : id' ≠ id) :
    lookupRecord (removeRecord st id) id' = lookupRecord st id' := by
  induction st with
  | nil => rfl
  | cons p rest ih =>
    obtain ⟨i, v⟩ := p
    by_cases hi : i = id
    · subst hi
      simp [removeRecord, lookupRecord, (Ne.symm h), ih]
    · by_cases hi' : i = id' <;> simp [removeRecord, lookupRecord, hi, hi', h, ih]

theorem lookupRecord_setRecord_self (st : BackendState) (id : Identity)
    (v : String) : lookupRecord (setRecord st id v) id = some v := by
  simp [setRecord, lookupRecord]

theorem lookupRecord_setRecord_other (st : BackendState) (id id' : Identity)
    (v : String) (h : id' ≠ id) :
    lookupRecord (setRecord st id v) id' = lookupRecord st id' := by
  simp [setRecord, lookupRecord, Ne.symm h, lookupRecord_removeRecord_other st id id' h]

theorem countRecords_removeRecord_self (st : BackendState) (id : Identity) :
    countRecords (removeRecord st id) id = 0 := by
  induction st with
  | nil => rfl
  | cons p rest ih =>
    obtain ⟨i, v⟩ := p
    by_cases h : i = id <;> simp [removeRecord, countRecords, h, ih]

theorem countRecords_setRecord_self (st : BackendState) (id : Identity)
    (v : String) : countRecords (setRecord st id v) id = 1 := by
  simp [setRecord, countRecords, countRecords_removeRecord_self]


/-! ## Behaviour lemmas for the adapter operations -/

theorem store_secret_key_ok (key : String) (st : BackendState) :
    store_secret_key .ok .ok key st =
      (.ok (), setRecord st (SERVICE_NAME, USERNAME) key) := rfl

theorem clear_secret_key_ok_result (st : BackendState) :
    (clear_secret_key .ok .ok st).1 = .ok () := by
  unfold clear_secret_key entryNew backendDelete
  cases h : lookupRecord st (SERVICE_NAME, USERNAME) <;> simp [h]

theorem load_secret_key_ok (st : BackendState) :
    load_secret_key .ok .ok st =
      ((match lookupRecord st (SERVICE_NAME, USERNAME) with
        | some v => .ok (some v)
        | none => .ok none), st) := by
  unfold load_secret_key entryNew backendGet
  cases h : lookupRecord st (SERVICE_NAME, USERNAME) <;> simp [h]

/-! ## Claim theorems -/

/-- C1: for every secret string `s` and every backend state, `store(s)`
followed by `load()` returns the successful present result `Some(s)`,
provided both backend calls succeed (all faults `.ok`). -/
theorem C1_store_load_roundtrip (s : String) (st : BackendState) :
    (store_secret_key .ok .ok s st).1 = .ok () ∧
    (load_secret_key .ok .ok (store_secret_key .ok .ok s st).2).1 =
      .ok (some s) := by
  refine ⟨rfl, ?_⟩
  rw [store_secret_key_ok, load_secret_key_ok]
  simp [lookupRecord_setRecord_self]

/-- C2: `store(s1)` then `store(s2)` then `load()` returns `Some(s2)`, and the
final state holds exactly one record under the fixed identity (last write
wins), provided the backend calls succeed. -/
theorem C2_overwrite_last_write_wins (s1 s2 : String) (st : BackendState) :
    (load_secret_key .ok .ok
        (store_secret_key .ok .ok s2
          (store_secret_key .ok .ok s1 st).2).2).1 = .ok (some s2) ∧
    countRecords (store_secret_key .ok .ok s2
        (store_secret_key .ok .ok s1 st).2).2 (SERVICE_NAME, USERNAME) = 1 := by
  rw [store_secret_key_ok, store_secret_key_ok, load_secret_key_ok]
  refine ⟨?_, countRecords_setRecord_self _ _ _⟩
  simp [lookupRecord_setRecord_self]

/-- C3: `clear()` on a state with no record under the fixed identity succeeds
and leaves the state unchanged, and for every state two consecutive
`clear()` calls (backend calls succeeding) never error on the second call. -/
theorem C3_clear_idempotent (st st' : BackendState)
    (h : lookupRecord st (SERVICE_NAME, USERNAME) = none) :
    clear_secret_key .ok .ok st = (.ok (), st) ∧
    (clear_secret_key .ok .ok (clear_secret_key .ok .ok st').2).1 = .ok () := by
  constructor
  · unfold clear_secret_key entryNew backendDelete
    simp [h]
  · exact clear_secret_key_ok_result _

/-- Witness for C3 at concrete inputs: the empty state, and a state holding a
record under the fixed identity. -/
theorem C3_witness :
    clear_secret_key .ok .ok [] = (.ok (), []) ∧
    (clear_secret_key .ok .ok
        (clear_secret_key .ok .ok
          [((SERVICE_NAME, USERNAME), "k")]).2).1 = .ok () :=
  C3_clear_idempotent [] [((SERVICE_NAME, USERNAME), "k")] rfl

/-- C4: on every backend state with no record under the fixed identity,
`load()` returns the successful absent result `Ok(None)`, never an error:
the backend's "record not found" outcome maps to absent-success. -/
theorem C4_absence_is_not_failure (st : BackendState)
    (h : lookupRecord st (SERVICE_NAME, USERNAME) = none) :
    load_secret_key .ok .ok st = (.ok none, st) := by
  rw [load_secret_key_ok, h]

/-- Witness for C4 at the empty backend state. -/
theorem C4_witness : load_secret_key .ok .ok [] = (.ok none, []) :=
  C4_absence_is_not_failure [] rfl

/-- C5: `store(s)` then `clear()` then `load()` returns the successful absent
result `None`, provided the backend calls succeed. -/
theorem C5_post_clear_absence (s : String) (st : BackendState) :
    (load_secret_key .ok .ok
        (clear_secret_key .ok .ok
          (store_secret_key .ok .ok s st).2).2).1 = .ok none := by
  rw [store_secret_key_ok]
  have hclear : clear_secret_key .ok .ok (setRecord st (SERVICE_NAME, USERNAME) s)
      = (.ok (), removeRecord (setRecord st (SERVICE_NAME, USERNAME) s)
          (SERVICE_NAME, USERNAME)) := by
    unfold clear_secret_key entryNew backendDelete
    simp [lookupRecord_setRecord_self]
  rw [hclear, load_secret_key_ok]
  simp [lookupRecord_removeRecord_self]

/-- C6: error normalization for all three operations: a backend access failure
with native message `m` maps to the operation's formatted error string
derived from `m`, while the backend's "record not found" outcome maps to
the operation-specific non-error success value (`Ok(None)` for load,
`Ok(())` for clear; the backend set call of store has no not-found
outcome, and store succeeds whether or not a record exists). -/
theorem C6_error_normalization :
    (∀ (m key : String) (st : BackendState),
        store_secret_key .ok (.fail m) key st =
          (.error ("Failed to store key: " ++ m), st)) ∧
    (∀ (m : String) (st : BackendState),
        load_secret_key .ok (.fail m) st =
          (.error ("Failed to load key: " ++ m), st)) ∧
    (∀ (m : String) (st : BackendState),
        clear_secret_key .ok (.fail m) st =
          (.error ("Failed to clear key: " ++ m), st)) ∧
    (∀ st : BackendState, lookupRecord st (SERVICE_NAME, USERNAME) = none →
        load_secret_key .ok .ok st = (.ok none, st)) ∧
    (∀ st : BackendState, lookupRecord st (SERVICE_NAME, USERNAME) = none →
        clear_secret_key .ok .ok st = (.ok (), st)) ∧
    (∀ (key : String) (st : BackendState),
        (store_secret_key .ok .ok key st).1 = .ok ()) := by
  refine ⟨fun m key st => rfl, fun m st => rfl, fun m st => rfl, ?_, ?_,
    fun key st => rfl⟩
  · intro st h
    rw [load_secret_key_ok, h]
  · intro st h
    unfold clear_secret_key entryNew backendDelete
    simp [h]

/-- Witness for C6: a concrete injected backend failure, and the not-found
outcome on the empty backend state. -/
theorem C6_witness :
    store_secret_key .ok (.fail "denied") "k" [] =
      (.error ("Failed to store key: " ++ "denied"), []) ∧
    clear_secret_key .ok .ok [] = (.ok (), []) :=
  ⟨C6_error_normalization.1 "denied" "k" [],
   C6_error_normalization.2.2.2.2.1 [] rfl⟩

/-- C7: `load()` leaves the backend state unchanged for every fault outcome
and every state: no record is created, modified, or deleted. -/
theorem C7_load_no_side_effects (ef opf : Fault) (st : BackendState) :
    (load_secret_key ef opf st).2 = st := by
  cases ef with
  | fail m => rfl
  | ok =>
    cases opf with
    | fail m => rfl
    | ok => rw [load_secret_key_ok]

/-- C8: `store(s)` has upsert semantics: from every backend state, whether or
not a record already exists under the fixed identity, it does not fail when
the backend calls succeed, and afterwards the record under the fixed
identity equals `s`. -/
theorem C8_store_upsert (s : String) (st : BackendState) :
    (store_secret_key .ok .ok s st).1 = .ok () ∧
    lookupRecord (store_secret_key .ok .ok s st).2 (SERVICE_NAME, USERNAME) =
      some s := by
  rw [store_secret_key_ok]
  exact ⟨rfl, lookupRecord_setRecord_self _ _ _⟩

/-- C9: all three operations address the backend only through the fixed
compile-time identity `("photovault", "secret_key")`: records under every
other identity are untouched by every operation under every fault outcome,
and the outcome of `load()` (and of `clear()`) depends only on the record
under the fixed identity. -/
theorem C9_fixed_identity_only :
    SERVICE_NAME = "photovault" ∧ USERNAME = "secret_key" ∧
    (∀ (ef opf : Fault) (key : String) (st : BackendState) (id' : Identity),
        id' ≠ (SERVICE_NAME, USERNAME) →
        lookupRecord (store_secret_key ef opf key st).2 id' =
          lookupRecord st id') ∧
    (∀ (ef opf : Fault) (st : BackendState) (id' : Identity),
        lookupRecord (load_secret_key ef opf st).2 id' = lookupRecord st id') ∧
    (∀ (ef opf : Fault) (st : BackendState) (id' : Identity),
        id' ≠ (SERVICE_NAME, USERNAME) →
        lookupRecord (clear_secret_key ef opf st).2 id' =
          lookupRecord st id') ∧
    (∀ (ef opf : Fault) (st st' : BackendState),
        lookupRecord st (SERVICE_NAME, USERNAME) =
          lookupRecord st' (SERVICE_NAME, USERNAME) →
        (load_secret_key ef opf st).1 = (load_secret_key ef opf st').1) ∧
    (∀ (ef opf : Fault) (st st' : BackendState),
        lookupRecord st (SERVICE_NAME, USERNAME) =
          lookupRecord st' (SERVICE_NAME, USERNAME) →
        (clear_secret_key ef opf st).1 = (clear_secret_key ef opf st').1) := by
  refine ⟨rfl, rfl, ?_, ?_, ?_, ?_, ?_⟩
  · intro ef opf key st id' h
    cases ef with
    | fail m => rfl
    | ok =>
      cases opf with
      | fail m => rfl
      | ok =>
        rw [store_secret_key_ok]
        exact lookupRecord_setRecord_other st _ id' key h
  · intro ef opf st id'
    cases ef with
    | fail m => rfl
    | ok =>
      cases opf with
      | fail m => rfl
      | ok => rw [load_secret_key_ok]
  · intro ef opf st id' h
    cases ef with
    | fail m => rfl
    | ok =>
      cases opf with
      | fail m => rfl
      | ok =>
        unfold clear_secret_key entryNew backendDelete
        cases h2 : lookupRecord st (SERVICE_NAME, USERNAME) <;>
          simp [h2, lookupRecord_removeRecord_other st _ id' h]
  · intro ef opf st st' h
    cases ef with
    | fail m => rfl
    | ok =>
      cases opf with
      | fail m => rfl
      | ok => rw [load_secret_key_ok, load_secret_key_ok, h]
  · intro ef opf st st' h
    cases ef with
    | fail m => rfl
    | ok =>
      cases opf with
      | fail m => rfl
      | ok =>
        simp only [clear_secret_key, entryNew, backendDelete]
        rw [h]
        cases h2 : lookupRecord st' (SERVICE_NAME, USERNAME) <;> simp [h2]

/-- Witness for C9: storing, loading and clearing leave a record under the
distinct identity `("other", "acct")` untouched, and load and clear respond
identically on two states agreeing under the fixed identity. -/
theorem C9_witness :
    lookupRecord (store_secret_key .ok .ok "k"
        [(("other", "acct"), "v")]).2 ("other", "acct") =
      lookupRecord [(("other", "acct"), "v")] ("other", "acct") ∧
    lookupRecord (load_secret_key .ok .ok
        [(("other", "acct"), "v")]).2 ("other", "acct") =
      lookupRecord [(("other", "acct"), "v")] ("other", "acct") ∧
    lookupRecord (clear_secret_key .ok .ok
        [(("other", "acct"), "v")]).2 ("other", "acct") =
      lookupRecord [(("other", "acct"), "v")] ("other", "acct") ∧
    (load_secret_key .ok .ok [(("other", "acct"), "v")]).1 =
      (load_secret_key .ok .ok []).1 ∧
    (clear_secret_key .ok .ok [(("other", "acct"), "v")]).1 =
      (clear_secret_key .ok .ok []).1 :=
  ⟨C9_fixed_identity_only.2.2.1 .ok .ok "k" _ _ (by decide),
   C9_fixed_identity_only.2.2.2.1 .ok .ok _ _,
   C9_fixed_identity_only.2.2.2.2.1 .ok .ok _ _ (by decide),
   C9_fixed_identity_only.2.2.2.2.2.1 .ok .ok _ _ (by decide),
   C9_fixed_identity_only.2.2.2.2.2.2 .ok .ok _ _ (by decide)⟩

/-- C10: each operation is a deterministic function of its input, the backend
fault outcomes, and the backend state: two runs from equal states produce
identical results (error strings included) and identical final states. -/
theorem C10_deterministic (ef opf : Fault) (key : String)
    (st st' : BackendState) (h : st = st') :
    store_secret_key ef opf key st = store_secret_key ef opf key st' ∧
    load_secret_key ef opf st = load_secret_key ef opf st' ∧
    clear_secret_key ef opf st = clear_secret_key ef opf st' := by
  subst h
  exact ⟨rfl, rfl, rfl⟩

/-- Witness for C10 at a concrete input and state. -/
theorem C10_witness :
    store_secret_key .ok .ok "k" [] = store_secret_key .ok .ok "k" [] ∧
    load_secret_key .ok .ok [] = load_secret_key .ok .ok [] ∧
    clear_secret_key .ok .ok [] = clear_secret_key .ok .ok [] :=
  C10_deterministic .ok .ok "k" [] [] rfl

end Keychain
